import Mathlib

/-!
Verification of the FiberProperties image-analysis core against its
natural-language specification.

The Python source is shallowly embedded over exact rational arithmetic:
an image array is a list of rows of rational pixel intensities, and the
numpy elementwise operations become `List.zipWith` / `List.map`.  The
golden-ratio constant `phi = (sqrt 5 - 1) / 2` and `pi` are irrational;
the optimization-loop models below take them as parameters, since every
property proved here holds for an arbitrary parameter value (the loop
structure, caching and tie-break behaviour never depend on the numeric
value of either constant).
-/

namespace FiberProps

/-- An image array: a list of rows of rational pixel intensities
(`numpy` 2D arrays in the source, e.g. `Calibration.py`). -/
abbrev Mat : Type := List (List ℚ)

/-- One pixel of `Calibration.removeDarkImage` (Calibration.py lines 81-97):
`output_array = image_array - dark_image` followed by
`output_array *= (output_array > 0.0)`, i.e. the difference is multiplied
by the 0/1 indicator of being strictly positive. -/
def removeDarkPixel (a d : ℚ) : ℚ :=
  (a - d) * (if 0 < a - d then 1 else 0)

/-- `Calibration.removeDarkImage` lifted over whole arrays: elementwise
clamped subtraction of the dark frame from the image. -/
def removeDarkImage (image dark : Mat) : Mat :=
  List.zipWith (fun row drow => List.zipWith removeDarkPixel row drow) image dark

/-- `List.getD` distributes over `List.zipWith` at in-bounds indices. -/
theorem zipWith_getD {α β γ : Type} (f : α → β → γ) (da : α) (db : β) (dc : γ) :
    ∀ (as' : List α) (bs : List β) (i : ℕ), i < as'.length → i < bs.length →
      (List.zipWith f as' bs).getD i dc = f (as'.getD i da) (bs.getD i db)
  | _ :: _, _ :: _, 0, _, _ => by simp
  | a :: as', b :: bs, i + 1, ha, hb => by
      simp only [List.zipWith_cons_cons, List.getD_cons_succ]
      exact zipWith_getD f da db dc as' bs i (by simpa using ha) (by simpa using hb)
  | [], _, _, ha, _ => by simp at ha
  | _ :: _, [], _, _, hb => by simp at hb

/-- Claim C1: for every image array `I` and dark array `D` of the same shape,
the dark-removal step returns an elementwise non-negative array; at every
pixel where `I - D > 0` the result equals `I - D` exactly, and pixels where
`I - D ≤ 0` are clamped to exactly `0`. -/
theorem C1_dark_removal_clamps (image dark : Mat) (i j : ℕ)
    (hi₁ : i < image.length) (hi₂ : i < dark.length)
    (hj₁ : j < (image.getD i []).length) (hj₂ : j < (dark.getD i []).length) :
    0 ≤ ((removeDarkImage image dark).getD i []).getD j 0 ∧
    (0 < (image.getD i []).getD j 0 - (dark.getD i []).getD j 0 →
      ((removeDarkImage image dark).getD i []).getD j 0
        = (image.getD i []).getD j 0 - (dark.getD i []).getD j 0) ∧
    ((image.getD i []).getD j 0 - (dark.getD i []).getD j 0 ≤ 0 →
      ((removeDarkImage image dark).getD i []).getD j 0 = 0) := by
  have houter : (removeDarkImage image dark).getD i []
      = List.zipWith removeDarkPixel (image.getD i []) (dark.getD i []) :=
    zipWith_getD (fun row drow => List.zipWith removeDarkPixel row drow)
      [] [] [] image dark i hi₁ hi₂
  have hinner : (List.zipWith removeDarkPixel (image.getD i []) (dark.getD i [])).getD j 0
      = removeDarkPixel ((image.getD i []).getD j 0) ((dark.getD i []).getD j 0) :=
    zipWith_getD removeDarkPixel 0 0 0 _ _ j hj₁ hj₂
  rw [houter, hinner, removeDarkPixel]
  set a := (image.getD i []).getD j 0 with ha
  set d := (dark.getD i []).getD j 0 with hd
  by_cases hpos : 0 < a - d
  · rw [if_pos hpos]
    refine ⟨by nlinarith, fun _ => by ring, fun hle => absurd hpos (not_lt.mpr hle)⟩
  · rw [if_neg hpos]
    exact ⟨by simp, fun h => absurd h hpos, fun _ => by ring⟩

/-- Witness for C1 at the concrete image `[[5, 1]]` and dark `[[2, 3]]`,
pixel `(0, 0)`. -/
theorem C1_dark_removal_clamps_witness :
    0 ≤ ((removeDarkImage [[5, 1]] [[2, 3]]).getD 0 []).getD 0 0 ∧
    (0 < (([[5, 1]] : Mat).getD 0 []).getD 0 0 - (([[2, 3]] : Mat).getD 0 []).getD 0 0 →
      ((removeDarkImage [[5, 1]] [[2, 3]]).getD 0 []).getD 0 0
        = (([[5, 1]] : Mat).getD 0 []).getD 0 0 - (([[2, 3]] : Mat).getD 0 []).getD 0 0) ∧
    ((([[5, 1]] : Mat).getD 0 []).getD 0 0 - (([[2, 3]] : Mat).getD 0 []).getD 0 0 ≤ 0 →
      ((removeDarkImage [[5, 1]] [[2, 3]]).getD 0 []).getD 0 0 = 0) :=
  C1_dark_removal_clamps [[5, 1]] [[2, 3]] 0 0
    (by decide) (by decide) (by decide) (by decide)

/-! ## The Calibration object and its correction pipeline (Calibration.py) -/

/-- All-zero array of the same shape as `m` (`np.zeros_like(image)`,
Calibration.py line 65). -/
def zerosLike (m : Mat) : Mat :=
  m.map (fun row => row.map (fun _ => 0))

/-- Total number of entries of an array (`array.size`). -/
def matCount (m : Mat) : ℕ :=
  (m.map List.length).sum

/-- Sum of all entries of an array. -/
def matSum (m : Mat) : ℚ :=
  (m.map List.sum).sum

/-- `array.mean()`: sum of the entries divided by their number. -/
def matMean (m : Mat) : ℚ :=
  matSum m / (matCount m : ℚ)

/-- `array * exp_time / ambient_exp_time` (Calibration.py lines 72-73):
every entry is multiplied by `t` and divided by `aet`.  Rational division
is total (`x / 0 = 0`); the source's floating division only ever runs with
a set, nonzero ambient exposure time. -/
def scaleMat (m : Mat) (t aet : ℚ) : Mat :=
  m.map (fun row => row.map (fun v => v * t / aet))

/-- `corrected_image *= corrected_flat_image.mean() / corrected_flat_image`
(Calibration.py line 77): each pixel is multiplied by the ratio of the
corrected flat's mean to the corrected flat's pixel.  Rational division is
total (`x / 0 = 0`), where numpy emits a non-finite float; in neither
semantics is an exception raised. -/
def flatCorrect (m flatCorr : Mat) : Mat :=
  List.zipWith (fun row frow =>
    List.zipWith (fun v fv => v * (matMean flatCorr / fv)) row frow) m flatCorr

/-- The `Calibration` object (Calibration.py lines 18-56): optional dark,
flat and ambient reference arrays plus the ambient exposure time.
`convertImageToArray` (from the external `NumpyArrayHandler` module) is
modelled as the identity on optional arrays: it returns `None` for `None`
input and the loaded array otherwise (spec sections 4.1 and 6). -/
structure Calibration where
  dark_image : Option Mat
  flat_image : Option Mat
  ambient_image : Option Mat
  ambient_exp_time : ℚ
deriving DecidableEq

/-- First statement of `executeErrorCorrections` (Calibration.py lines 64-65):
if no dark image is set, store an all-zero array shaped like the input
image as the dark image. -/
def Calibration.ensureDark (c : Calibration) (image : Mat) : Calibration :=
  if c.dark_image = none then { c with dark_image := some (zerosLike image) } else c

/-- Ambient stage of `executeErrorCorrections` (Calibration.py lines 68-73):
when an ambient reference exists, dark-correct it, optionally scale by
`exp_time / ambient_exp_time`, and subtract it (with clamping) from the
running corrected image. -/
def Calibration.ambientStage (c : Calibration) (dark corrected : Mat)
    (exp_time : Option ℚ) : Mat :=
  match c.ambient_image with
  | none => corrected
  | some amb =>
    match exp_time with
    | none => removeDarkImage corrected (removeDarkImage amb dark)
    | some t => removeDarkImage corrected (scaleMat (removeDarkImage amb dark) t c.ambient_exp_time)

/-- Flat stage of `executeErrorCorrections` (Calibration.py lines 75-77):
when a flat reference exists, dark-correct it and multiply the running
corrected image elementwise by `mean(flat_corrected) / flat_corrected`.
No validation of the flat's pixels is performed. -/
def Calibration.flatStage (c : Calibration) (dark corrected : Mat) : Mat :=
  match c.flat_image with
  | none => corrected
  | some flat => flatCorrect corrected (removeDarkImage flat dark)

/-- `Calibration.executeErrorCorrections` (Calibration.py lines 58-79).
Returns both the (possibly mutated) `Calibration` object and the corrected
image, making the frame effect on `dark_image` explicit. -/
def Calibration.executeErrorCorrections (c : Calibration) (image : Mat)
    (exp_time : Option ℚ) : Calibration × Mat :=
  let c' := c.ensureDark image
  let dark := c'.dark_image.getD (zerosLike image)
  (c', c'.flatStage dark (c'.ambientStage dark (removeDarkImage image dark) exp_time))

/-- Claim C10 (confirmed): a `Calibration` constructed with no dark reference
is mutated by the first `executeErrorCorrections` call, which permanently
stores an all-zero array shaped like that first input image as the dark
image; any later call through the same object leaves the object unchanged
(so the stored zero array is reused), and `executeErrorCorrections` never
reassigns the flat or ambient references of any `Calibration`. -/
theorem C10_dark_autoinit_frame_effect (flat amb : Option Mat) (aet : ℚ)
    (image image₂ : Mat) (t t₂ : Option ℚ) (c : Calibration) :
    ((Calibration.mk none flat amb aet).executeErrorCorrections image t).1
      = Calibration.mk (some (zerosLike image)) flat amb aet ∧
    ((((Calibration.mk none flat amb aet).executeErrorCorrections image t).1).executeErrorCorrections
        image₂ t₂).1
      = Calibration.mk (some (zerosLike image)) flat amb aet ∧
    (zerosLike image).map List.length = image.map List.length ∧
    (zerosLike image).all (fun row => row.all (fun v => v == 0)) = true ∧
    ((c.executeErrorCorrections image t).1).flat_image = c.flat_image ∧
    ((c.executeErrorCorrections image t).1).ambient_image = c.ambient_image := by
  refine ⟨rfl, rfl, ?_, ?_, ?_, ?_⟩
  · simp [zerosLike, Function.comp]
  · simp [zerosLike, List.all_eq_true]
  · rcases c with ⟨d, f, a, e⟩
    cases d <;> rfl
  · rcases c with ⟨d, f, a, e⟩
    cases d <;> rfl

/-- Counterexample to claim C9 as stated: the flat reference `[[0]]` has a
zero pixel after its own dark correction, yet `executeErrorCorrections`
does not fail with any input-validation error: it performs the flat
division anyway and returns an ordinary array.  (In the source the
division by the zero pixel yields a non-finite numpy float with only a
runtime warning; in the rational model it yields the total-division value.
In neither semantics does the pipeline raise an input-validation error:
`Calibration.py` contains no validation of the flat's pixels at all.) -/
theorem C9_flat_zero_pixel_not_rejected :
    (removeDarkImage [[0]] [[0]] = [[0]]) ∧
    (Calibration.mk (some [[0]]) (some [[0]]) none 1).executeErrorCorrections [[4]] none
      = (Calibration.mk (some [[0]]) (some [[0]]) none 1, [[0]]) := by
  constructor
  · norm_num [removeDarkImage, removeDarkPixel]
  · norm_num [Calibration.executeErrorCorrections, Calibration.ensureDark,
      Calibration.ambientStage, Calibration.flatStage, flatCorrect,
      matMean, matSum, matCount, removeDarkImage, removeDarkPixel, zerosLike]

/-- Claim C9, amended: when a flat reference exists the pipeline multiplies
the running corrected image elementwise by `mean(flat_corrected) /
flat_corrected`, and it does so unconditionally — no input validation is
performed, so a zero-or-negative pixel in the corrected flat does not
cause a failure (numpy produces non-finite values there instead). -/
theorem C9_flat_stage_unconditional (c : Calibration) (image : Mat) (t : Option ℚ)
    (flat : Mat) (h : c.flat_image = some flat) :
    (c.executeErrorCorrections image t).2
      = flatCorrect
          ((c.ensureDark image).ambientStage
            ((c.ensureDark image).dark_image.getD (zerosLike image))
            (removeDarkImage image ((c.ensureDark image).dark_image.getD (zerosLike image))) t)
          (removeDarkImage flat ((c.ensureDark image).dark_image.getD (zerosLike image))) := by
  have hf : (c.ensureDark image).flat_image = some flat := by
    rcases c with ⟨d, f, a, e⟩
    unfold Calibration.ensureDark
    split <;> simpa using h
  simp only [Calibration.executeErrorCorrections, Calibration.flatStage, hf]

/-- Witness for C9 (amended) at a concrete calibration whose corrected flat
contains a zero pixel: the flat stage is still applied. -/
theorem C9_flat_stage_unconditional_witness :
    ((Calibration.mk (some [[0]]) (some [[0]]) none 1).executeErrorCorrections [[4]] none).2
      = flatCorrect
          (((Calibration.mk (some [[0]]) (some [[0]]) none 1).ensureDark [[4]]).ambientStage
            (((Calibration.mk (some [[0]]) (some [[0]]) none 1).ensureDark [[4]]).dark_image.getD
              (zerosLike [[4]]))
            (removeDarkImage [[4]]
              (((Calibration.mk (some [[0]]) (some [[0]]) none 1).ensureDark [[4]]).dark_image.getD
                (zerosLike [[4]]))) none)
          (removeDarkImage [[0]]
            (((Calibration.mk (some [[0]]) (some [[0]]) none 1).ensureDark [[4]]).dark_image.getD
              (zerosLike [[4]]))) :=
  C9_flat_stage_unconditional (Calibration.mk (some [[0]]) (some [[0]]) none 1) [[4]] none
    [[0]] rfl

/-! ## The 2D golden-section center search (ImageAnalysis.py lines 603-704)

`setFiberCenterCircleMethod` minimizes, over candidate centers `(x, y)`,
the sum of the image outside a disk of fixed radius.  The objective
`(x, y) ↦ sumArray (removeCircle (filtered_image, x, y, radius, res))`
lives in the external `NumpyArrayHandler` module and is taken as a
function parameter `f`; likewise the golden ratio `phi = (sqrt 5 - 1)/2`
is an (irrational) constant taken as a parameter, since no property
proved here depends on its value. -/

/-- State of the 2D golden-section center search: the four bracketing
positions per axis (`x[0..3]`, `y[0..3]`) and the four corner objective
values `array_sum[j][i]` (row-major; `j` indexes `y`, `i` indexes `x`). -/
structure CState where
  x0 : ℚ
  x1 : ℚ
  x2 : ℚ
  x3 : ℚ
  y0 : ℚ
  y1 : ℚ
  y2 : ℚ
  y3 : ℚ
  s00 : ℚ
  s01 : ℚ
  s10 : ℚ
  s11 : ℚ
deriving DecidableEq

/-- Corner objective accessor `array_sum[j, i]`. -/
def CState.sAt (st : CState) (j i : Fin 2) : ℚ :=
  match j, i with
  | 0, 0 => st.s00
  | 0, 1 => st.s01
  | 1, 0 => st.s10
  | 1, 1 => st.s11

/-- `x[i+1]`: the interior x-position of corner column `i`. -/
def CState.xc (st : CState) (i : Fin 2) : ℚ :=
  if i = 0 then st.x1 else st.x2

/-- `y[j+1]`: the interior y-position of corner row `j`. -/
def CState.yc (st : CState) (j : Fin 2) : ℚ :=
  if j = 0 then st.y1 else st.y2

/-- `np.unravel_index(np.argmin(array_sum), (2, 2))` on the row-major
corner values `(a, b, c, d) = (s00, s01, s10, s11)`: `np.argmin` returns
the first flat index attaining the minimum, unraveled to `(j, i)`. -/
def argmin4 (a b c d : ℚ) : Fin 2 × Fin 2 :=
  if a ≤ b ∧ a ≤ c ∧ a ≤ d then (0, 0)
  else if b ≤ c ∧ b ≤ d then (0, 1)
  else if c ≤ d then (1, 0)
  else (1, 1)

/-- One axis of the bracket shrink (ImageAnalysis.py lines 669-684),
sequentialized: for `idx = 0` the source runs `hi = p2; p2 = p1;
p1 = lo + (1 - phi) * (hi - lo)` (so the new `p1` uses the updated
`hi = p2`); for `idx = 1` it runs `lo = p1; p1 = p2;
p2 = lo + phi * (hi - lo)` (the new `p2` uses the updated `lo = p1`).
Returns the updated `(lo, p1, p2, hi)`. -/
def goldenShrink (phi lo p1 p2 hi : ℚ) (idx : Fin 2) : ℚ × ℚ × ℚ × ℚ :=
  if idx = 0 then (lo, lo + (1 - phi) * (p2 - lo), p1, p2)
  else (p1, p2, p1 + phi * (hi - p1), hi)

/-- Result of one iteration of the 2D search loop, together with the list
of corners whose objective value was freshly recomputed by `f` during
that iteration (the source's inner double loop, lines 691-697). -/
structure CStep where
  state : CState
  recomputed : List (Fin 2 × Fin 2)
deriving DecidableEq

/-- One iteration of the `setFiberCenterCircleMethod` while-loop
(ImageAnalysis.py lines 667-699): find the minimum corner, shrink both
axes toward it, copy the old minimum corner's value to the opposite
corner position `(1 - j, 1 - i)` (the position its coordinates moved to),
and recompute the objective at every other corner. -/
def circleStep (phi : ℚ) (f : ℚ → ℚ → ℚ) (st : CState) : CStep :=
  let m := argmin4 st.s00 st.s01 st.s10 st.s11
  let ys := goldenShrink phi st.y0 st.y1 st.y2 st.y3 m.1
  let xs := goldenShrink phi st.x0 st.x1 st.x2 st.x3 m.2
  let m' : Fin 2 × Fin 2 := (1 - m.1, 1 - m.2)
  let nx1 := xs.2.1
  let nx2 := xs.2.2.1
  let ny1 := ys.2.1
  let ny2 := ys.2.2.1
  let sNew := fun (j i : Fin 2) =>
    if ((j, i) : Fin 2 × Fin 2) = m' then st.sAt m.1 m.2
    else f (if i = 0 then nx1 else nx2) (if j = 0 then ny1 else ny2)
  { state :=
      { x0 := xs.1, x1 := nx1, x2 := nx2, x3 := xs.2.2.2,
        y0 := ys.1, y1 := ny1, y2 := ny2, y3 := ys.2.2.2,
        s00 := sNew 0 0, s01 := sNew 0 1, s10 := sNew 1 0, s11 := sNew 1 1 },
    recomputed :=
      ([((0 : Fin 2), (0 : Fin 2)), (0, 1), (1, 0), (1, 1)]).filter (fun p => p != m') }

/-- The while-loop `while abs(x[3] - x[0]) > tol and abs(y[3] - y[0]) > tol`
(ImageAnalysis.py line 667), with explicit fuel. -/
def circleLoop (phi : ℚ) (f : ℚ → ℚ → ℚ) (tol : ℚ) : ℕ → CState → CState
  | 0, st => st
  | fuel + 1, st =>
    if |st.x3 - st.x0| > tol ∧ |st.y3 - st.y0| > tol then
      circleLoop phi f tol fuel (circleStep phi f st).state
    else st

/-- Initial state of the 2D search (ImageAnalysis.py lines 620-662):
bracket setup (full range `[radius, width - radius] × [radius,
height - radius]` or a clamped window of size `testRange` around the
edge-method center estimate `approx = (y, x)`), interior points at the
golden sections, and all four corner objectives evaluated. -/
def circleInit (phi : ℚ) (f : ℚ → ℚ → ℚ) (width height radius : ℚ)
    (testRange : Option ℚ) (approx : ℚ × ℚ) : CState :=
  let b :=
    match testRange with
    | some tr =>
      let tr := tr / 2
      let bx0 := approx.2 - tr
      let bx0 := if bx0 < radius then radius else bx0
      let bx3 := approx.2 + tr
      let bx3 := if bx3 > width - radius then width - radius else bx3
      let by0 := approx.1 - tr
      let by0 := if by0 < radius then radius else by0
      let by3 := approx.1 + tr
      let by3 := if by3 > height - radius then height - radius else by3
      (bx0, bx3, by0, by3)
    | none => (radius, width - radius, radius, height - radius)
  let nx1 := b.1 + (1 - phi) * (b.2.1 - b.1)
  let nx2 := b.1 + phi * (b.2.1 - b.1)
  let ny1 := b.2.2.1 + (1 - phi) * (b.2.2.2 - b.2.2.1)
  let ny2 := b.2.2.1 + phi * (b.2.2.2 - b.2.2.1)
  { x0 := b.1, x1 := nx1, x2 := nx2, x3 := b.2.1,
    y0 := b.2.2.1, y1 := ny1, y2 := ny2, y3 := b.2.2.2,
    s00 := f nx1 ny1, s01 := f nx2 ny1, s10 := f nx1 ny2, s11 := f nx2 ny2 }

/-- The corner the method returns: `x[min_index[1]+1], y[min_index[0]+1]`
for the argmin of the current corner values (ImageAnalysis.py lines
701-702). -/
def bestCorner (st : CState) : ℚ × ℚ :=
  let m := argmin4 st.s00 st.s01 st.s10 st.s11
  (st.xc m.2, st.yc m.1)

/-- `np.amin` over the flat corner values. -/
def min4 (a b c d : ℚ) : ℚ :=
  min (min (min a b) c) d

/-- Final result of the circle method (ImageAnalysis.py lines 701-704):
best corner as the center, diameter `radius * 2`, and the minimum
corner value as `array_sum`. -/
structure CircleResult where
  centerX : ℚ
  centerY : ℚ
  diameter : ℚ
  arraySum : ℚ
deriving DecidableEq

/-- Assemble the `CircleResult` from the loop's final state. -/
def circleFinish (radius : ℚ) (st : CState) : CircleResult :=
  { centerX := (bestCorner st).1, centerY := (bestCorner st).2,
    diameter := radius * 2, arraySum := min4 st.s00 st.s01 st.s10 st.s11 }

/-- `ImageAnalysis.setFiberCenterCircleMethod` (ImageAnalysis.py lines
603-704), parameterized by the masked-sum objective `f`. -/
def setFiberCenterCircleMethod (phi : ℚ) (f : ℚ → ℚ → ℚ) (width height radius tol : ℚ)
    (testRange : Option ℚ) (approx : ℚ × ℚ) (fuel : ℕ) : CircleResult :=
  circleFinish radius (circleLoop phi f tol fuel (circleInit phi f width height radius testRange approx))

/-- Claim C2: the 2D golden-section center search iterates only while BOTH
axis bracket spans exceed `tol`: at a state whose y-span is already
`≤ tol`, the loop performs no further iteration even though the x-span is
still `> tol`, and the returned center is the best corner of that state;
while at a state where both spans exceed `tol` the loop does take a step. -/
theorem C2_circle_loop_stops_when_either_axis_converges
    (phi tol radius : ℚ) (f : ℚ → ℚ → ℚ) (fuel fuel₂ : ℕ) (st st₂ : CState)
    (hx : tol < |st.x3 - st.x0|) (hy : |st.y3 - st.y0| ≤ tol)
    (hb : tol < |st₂.x3 - st₂.x0| ∧ tol < |st₂.y3 - st₂.y0|) :
    circleLoop phi f tol fuel st = st ∧
    (circleFinish radius (circleLoop phi f tol fuel st)).centerX = (bestCorner st).1 ∧
    (circleFinish radius (circleLoop phi f tol fuel st)).centerY = (bestCorner st).2 ∧
    circleLoop phi f tol (fuel₂ + 1) st₂ = circleLoop phi f tol fuel₂ (circleStep phi f st₂).state := by
  have hstop : circleLoop phi f tol fuel st = st := by
    cases fuel with
    | zero => rfl
    | succ n =>
      rw [circleLoop, if_neg]
      intro hcontra
      exact absurd hcontra.2 (not_lt.mpr hy)
  refine ⟨hstop, by rw [hstop]; rfl, by rw [hstop]; rfl, ?_⟩
  rw [circleLoop, if_pos ⟨hb.1, hb.2⟩]

/-- Concrete state with x-span 10 and y-span 0 (x-axis far from converged,
y-axis converged). -/
def c2StateA : CState :=
  ⟨0, 1, 2, 10, 0, 0, 0, 0, 0, 0, 0, 0⟩

/-- Concrete state with both spans equal to 10. -/
def c2StateB : CState :=
  ⟨0, 1, 2, 10, 0, 1, 2, 10, 0, 0, 0, 0⟩

/-- Witness for C2 at `tol = 1` and the two concrete states above. -/
theorem C2_circle_loop_stops_witness :
    circleLoop (1/2) (fun _ _ => 0) 1 2 c2StateA = c2StateA ∧
    (circleFinish 5 (circleLoop (1/2) (fun _ _ => 0) 1 2 c2StateA)).centerX
      = (bestCorner c2StateA).1 ∧
    (circleFinish 5 (circleLoop (1/2) (fun _ _ => 0) 1 2 c2StateA)).centerY
      = (bestCorner c2StateA).2 ∧
    circleLoop (1/2) (fun _ _ => 0) 1 (1 + 1) c2StateB
      = circleLoop (1/2) (fun _ _ => 0) 1 1 (circleStep (1/2) (fun _ _ => 0) c2StateB).state :=
  C2_circle_loop_stops_when_either_axis_converges (1/2) 1 5 (fun _ _ => 0) 2 1
    c2StateA c2StateB (by norm_num [c2StateA]) (by norm_num [c2StateA])
    ⟨by norm_num [c2StateB], by norm_num [c2StateB]⟩

/-- Concrete search state used to exhibit the per-iteration recomputation
count of the 2D search. -/
def c6State : CState :=
  ⟨0, 1, 2, 3, 0, 1, 2, 3, 5, 6, 7, 8⟩

/-- Counterexample to claim C6 as stated: at a concrete state, one
iteration of the 2D center-search loop freshly recomputes THREE of the
four corner objective values, not one. -/
theorem C6_three_corners_recomputed_counterexample :
    (circleStep (1/2) (fun _ _ => 0) c6State).recomputed.length = 3 ∧
    ¬ (circleStep (1/2) (fun _ _ => 0) c6State).recomputed.length = 1 := by
  have h3 : (circleStep (1/2) (fun _ _ => 0) c6State).recomputed.length = 3 := by
    show (([((0 : Fin 2), (0 : Fin 2)), (0, 1), (1, 0), (1, 1)]).filter
      (fun p => p != (1 - (argmin4 5 6 7 8).1, 1 - (argmin4 5 6 7 8).2))).length = 3
    norm_num [argmin4]
  exact ⟨h3, by rw [h3]; decide⟩

/-- Claim C6, amended: in every iteration of the 2D golden-section center
search after the first, exactly ONE of the four corner objective values is
carried over from the previous iteration — the old minimum corner's value,
copied to the opposite corner position `(1 - j, 1 - i)` where its
coordinates moved — while the other THREE corners are freshly recomputed
by masked-sum evaluations. -/
theorem C6_one_corner_cached_three_recomputed (phi : ℚ) (f : ℚ → ℚ → ℚ) (st : CState) :
    (circleStep phi f st).recomputed.length = 3 ∧
    ((1 - (argmin4 st.s00 st.s01 st.s10 st.s11).1,
       1 - (argmin4 st.s00 st.s01 st.s10 st.s11).2) : Fin 2 × Fin 2)
      ∉ (circleStep phi f st).recomputed ∧
    (circleStep phi f st).state.sAt
        (1 - (argmin4 st.s00 st.s01 st.s10 st.s11).1)
        (1 - (argmin4 st.s00 st.s01 st.s10 st.s11).2)
      = st.sAt (argmin4 st.s00 st.s01 st.s10 st.s11).1
          (argmin4 st.s00 st.s01 st.s10 st.s11).2 := by
  have hlen : ∀ (m : Fin 2 × Fin 2),
      (([((0 : Fin 2), (0 : Fin 2)), (0, 1), (1, 0), (1, 1)]).filter
        (fun p => p != (1 - m.1, 1 - m.2))).length = 3 := by decide
  have hmem : ∀ (m : Fin 2 × Fin 2),
      ((1 - m.1, 1 - m.2) : Fin 2 × Fin 2) ∉
        (([((0 : Fin 2), (0 : Fin 2)), (0, 1), (1, 0), (1, 1)]).filter
          (fun p => p != (1 - m.1, 1 - m.2))) := by decide
  refine ⟨hlen _, hmem _, ?_⟩
  rcases hm : argmin4 st.s00 st.s01 st.s10 st.s11 with ⟨j, i⟩
  fin_cases j <;> fin_cases i <;> simp [circleStep, hm, CState.sAt]

/-! ## The 1D golden-section radius search (ImageAnalysis.py lines 537-601)

`setFiberCenterRadiusMethod` minimizes, over the trial radius `r`, the
quantity `array_sum['circle'] + threshold * pi * r**2`, where
`array_sum['circle']` is the masked sum produced by running
`setFiberCenterCircleMethod(r, tol, test_range)`.  The per-radius
masked-sum objective family `F r x y` and the constants `phi` and `pi`
(`piq` below) are parameters, as above. -/

/-- State of the 1D radius search: bracket `r[0..3]`, the two interior
objective values `array_sum[0..1]`, and the center stored by the most
recent circle-method call (`self._center['circle']`). -/
structure RState where
  r0 : ℚ
  r1 : ℚ
  r2 : ℚ
  r3 : ℚ
  s0 : ℚ
  s1 : ℚ
  lastCenter : ℚ × ℚ
deriving DecidableEq

/-- `np.argmin` over the 2-entry `array_sum`: the first index attaining
the minimum (`0` exactly when `array_sum[0] <= array_sum[1]`). -/
def argmin2 (a b : ℚ) : Fin 2 :=
  if a ≤ b then 0 else 1

/-- The quantity minimized for a trial radius `r` (ImageAnalysis.py lines
576 and 593-594): the circle-method masked sum at radius `r` plus the
area penalty `threshold * pi * r**2`. -/
def radiusObjective (circle : ℚ → CircleResult) (threshold piq : ℚ) (r : ℚ) : ℚ :=
  (circle r).arraySum + threshold * piq * r ^ 2

/-- One iteration of the `setFiberCenterRadiusMethod` while-loop
(ImageAnalysis.py lines 580-596): shrink the bracket toward the interior
point with the smaller objective value, copy that value into the other
slot (its radius became the other interior point), and evaluate the
objective afresh at the single new interior point via a circle-method
call. -/
def radiusStep (phi : ℚ) (circle : ℚ → CircleResult) (threshold piq : ℚ) (st : RState) : RState :=
  if argmin2 st.s0 st.s1 = 0 then
    let r3 := st.r2
    let r2 := st.r1
    let r1 := st.r0 + (1 - phi) * (r3 - st.r0)
    let c := circle r1
    { r0 := st.r0, r1 := r1, r2 := r2, r3 := r3,
      s0 := c.arraySum + threshold * piq * r1 ^ 2, s1 := st.s0,
      lastCenter := (c.centerX, c.centerY) }
  else
    let r0 := st.r1
    let r1 := st.r2
    let r2 := r0 + phi * (st.r3 - r0)
    let c := circle r2
    { r0 := r0, r1 := r1, r2 := r2, r3 := st.r3,
      s0 := st.s1, s1 := c.arraySum + threshold * piq * r2 ^ 2,
      lastCenter := (c.centerX, c.centerY) }

/-- The while-loop `while abs(r[3] - r[0]) > tol` (ImageAnalysis.py line
580), with explicit fuel. -/
def radiusLoop (phi : ℚ) (circle : ℚ → CircleResult) (threshold piq tol : ℚ) :
    ℕ → RState → RState
  | 0, st => st
  | fuel + 1, st =>
    if |st.r3 - st.r0| > tol then
      radiusLoop phi circle threshold piq tol fuel (radiusStep phi circle threshold piq st)
    else st

/-- Initial state of the radius search (ImageAnalysis.py lines 556-578):
bracket `[0, min(height, width)/2]` when no test range is given, else a
window around the edge-method radius estimate clamped below at `0`;
interior points at the golden sections; both interior objectives
evaluated by circle-method calls (`r[1]` first, then `r[2]`). -/
def radiusInit (phi : ℚ) (circle : ℚ → CircleResult) (threshold piq height width : ℚ)
    (testRange : Option ℚ) (approxRadius : ℚ) : RState :=
  let b :=
    match testRange with
    | some tr =>
      let tr := tr / 2
      let br0 := approxRadius - tr
      let br0 := if br0 < 0 then 0 else br0
      (br0, approxRadius + tr)
    | none => ((0 : ℚ), min height width / 2)
  let r1 := b.1 + (1 - phi) * (b.2 - b.1)
  let r2 := b.1 + phi * (b.2 - b.1)
  let c1 := circle r1
  let c2 := circle r2
  { r0 := b.1, r1 := r1, r2 := r2, r3 := b.2,
    s0 := c1.arraySum + threshold * piq * r1 ^ 2,
    s1 := c2.arraySum + threshold * piq * r2 ^ 2,
    lastCenter := (c2.centerX, c2.centerY) }

/-- Result of the radius method (ImageAnalysis.py lines 598-601):
diameter `r[min_index+1] * 2`, the center of the last circle-method call,
and `np.amin(array_sum)`. -/
structure RadiusResult where
  diameter : ℚ
  centerX : ℚ
  centerY : ℚ
  arraySum : ℚ
deriving DecidableEq

/-- Assemble the `RadiusResult` from the loop's final state. -/
def radiusFinish (st : RState) : RadiusResult :=
  { diameter := (if argmin2 st.s0 st.s1 = 0 then st.r1 else st.r2) * 2,
    centerX := st.lastCenter.1, centerY := st.lastCenter.2,
    arraySum := min st.s0 st.s1 }

/-- The circle-method call made for a trial radius `r` (ImageAnalysis.py
lines 575 and 592): `setFiberCenterCircleMethod(r, tol, test_range)`
with the masked-sum objective family `F`.  When a test range is given,
line 560 rebinds `test_range = test_range / 2.0` BEFORE these calls, so
the circle method receives the halved value (and then halves it once more
itself, line 626); `testRange` here is the radius method's original
argument, halved on the way through. -/
def radiusCircle (phi : ℚ) (F : ℚ → ℚ → ℚ → ℚ) (width height tol : ℚ)
    (testRange : Option ℚ) (approx : ℚ × ℚ) (cfuel : ℕ) : ℚ → CircleResult :=
  fun r => setFiberCenterCircleMethod phi (F r) width height r tol
    (testRange.map (fun tr => tr / 2)) approx cfuel

/-- The final state reached by the radius-method loop started from the
radius-method initial state. -/
def radiusLoopFromInit (phi : ℚ) (F : ℚ → ℚ → ℚ → ℚ) (width height tol threshold piq : ℚ)
    (testRange : Option ℚ) (approx : ℚ × ℚ) (approxRadius : ℚ) (cfuel fuel : ℕ) : RState :=
  radiusLoop phi (radiusCircle phi F width height tol testRange approx cfuel) threshold piq tol
    fuel
    (radiusInit phi (radiusCircle phi F width height tol testRange approx cfuel) threshold piq
      height width testRange approxRadius)

/-- `ImageAnalysis.setFiberCenterRadiusMethod` (ImageAnalysis.py lines
537-601). -/
def setFiberCenterRadiusMethod (phi : ℚ) (F : ℚ → ℚ → ℚ → ℚ)
    (width height tol threshold piq : ℚ) (testRange : Option ℚ) (approx : ℚ × ℚ)
    (approxRadius : ℚ) (cfuel fuel : ℕ) : RadiusResult :=
  radiusFinish (radiusLoopFromInit phi F width height tol threshold piq testRange approx
    approxRadius cfuel fuel)

/-- The radius-method loop step preserves the invariant that each
`array_sum` slot holds the objective of its interior radius. -/
theorem radiusStep_inv (phi : ℚ) (circle : ℚ → CircleResult) (threshold piq : ℚ)
    (st : RState) (h0 : st.s0 = radiusObjective circle threshold piq st.r1)
    (h1 : st.s1 = radiusObjective circle threshold piq st.r2) :
    (radiusStep phi circle threshold piq st).s0
        = radiusObjective circle threshold piq (radiusStep phi circle threshold piq st).r1 ∧
    (radiusStep phi circle threshold piq st).s1
        = radiusObjective circle threshold piq (radiusStep phi circle threshold piq st).r2 := by
  by_cases hm : argmin2 st.s0 st.s1 = 0
  · simp only [radiusStep, if_pos hm]
    exact ⟨rfl, h0⟩
  · simp only [radiusStep, if_neg hm]
    exact ⟨h1, rfl⟩

/-- The invariant of `radiusStep_inv` is preserved by the whole loop. -/
theorem radiusLoop_inv (phi : ℚ) (circle : ℚ → CircleResult) (threshold piq tol : ℚ)
    (fuel : ℕ) (st : RState)
    (h0 : st.s0 = radiusObjective circle threshold piq st.r1)
    (h1 : st.s1 = radiusObjective circle threshold piq st.r2) :
    (radiusLoop phi circle threshold piq tol fuel st).s0
        = radiusObjective circle threshold piq
            (radiusLoop phi circle threshold piq tol fuel st).r1 ∧
    (radiusLoop phi circle threshold piq tol fuel st).s1
        = radiusObjective circle threshold piq
            (radiusLoop phi circle threshold piq tol fuel st).r2 := by
  induction fuel generalizing st with
  | zero => exact ⟨h0, h1⟩
  | succ n ih =>
    rw [radiusLoop]
    split
    · have hstep := radiusStep_inv phi circle threshold piq st h0 h1
      exact ih _ hstep.1 hstep.2
    · exact ⟨h0, h1⟩

/-- Claim C5: in the 1D radius search, (i) the default trial-radius
bracket when no search range is given is `[0, min(height, width)/2]`;
(ii) every `array_sum` slot equals the circle-method masked sum of its
trial radius plus `threshold * pi * r^2` — the property holds of the
initial state, and is preserved by every loop step (stated at the given
state `st` and propagated through the whole loop); and (iii) the returned
diameter is twice the interior radius selected by the final argmin, and
the returned `array_sum` is exactly the objective of that returned
radius (`diameter / 2`). -/
theorem C5_radius_objective_and_bracket (phi : ℚ) (F : ℚ → ℚ → ℚ → ℚ)
    (width height tol threshold piq : ℚ) (testRange : Option ℚ) (approx : ℚ × ℚ)
    (approxRadius : ℚ) (cfuel fuel : ℕ) (st : RState)
    (h0 : st.s0 = radiusObjective (radiusCircle phi F width height tol testRange approx cfuel)
      threshold piq st.r1)
    (h1 : st.s1 = radiusObjective (radiusCircle phi F width height tol testRange approx cfuel)
      threshold piq st.r2) :
    (radiusInit phi (radiusCircle phi F width height tol testRange approx cfuel) threshold piq
        height width none approxRadius).r0 = 0 ∧
    (radiusInit phi (radiusCircle phi F width height tol testRange approx cfuel) threshold piq
        height width none approxRadius).r3 = min height width / 2 ∧
    (radiusInit phi (radiusCircle phi F width height tol testRange approx cfuel) threshold piq
          height width testRange approxRadius).s0
        = radiusObjective (radiusCircle phi F width height tol testRange approx cfuel)
            threshold piq
            (radiusInit phi (radiusCircle phi F width height tol testRange approx cfuel)
              threshold piq height width testRange approxRadius).r1 ∧
    (radiusInit phi (radiusCircle phi F width height tol testRange approx cfuel) threshold piq
          height width testRange approxRadius).s1
        = radiusObjective (radiusCircle phi F width height tol testRange approx cfuel)
            threshold piq
            (radiusInit phi (radiusCircle phi F width height tol testRange approx cfuel)
              threshold piq height width testRange approxRadius).r2 ∧
    (radiusStep phi (radiusCircle phi F width height tol testRange approx cfuel) threshold piq
          st).s0
        = radiusObjective (radiusCircle phi F width height tol testRange approx cfuel)
            threshold piq
            (radiusStep phi (radiusCircle phi F width height tol testRange approx cfuel)
              threshold piq st).r1 ∧
    (radiusStep phi (radiusCircle phi F width height tol testRange approx cfuel) threshold piq
          st).s1
        = radiusObjective (radiusCircle phi F width height tol testRange approx cfuel)
            threshold piq
            (radiusStep phi (radiusCircle phi F width height tol testRange approx cfuel)
              threshold piq st).r2 ∧
    (setFiberCenterRadiusMethod phi F width height tol threshold piq testRange approx
          approxRadius cfuel fuel).diameter
        = (if argmin2
              (radiusLoopFromInit phi F width height tol threshold piq testRange approx
                approxRadius cfuel fuel).s0
              (radiusLoopFromInit phi F width height tol threshold piq testRange approx
                approxRadius cfuel fuel).s1 = 0
           then (radiusLoopFromInit phi F width height tol threshold piq testRange approx
              approxRadius cfuel fuel).r1
           else (radiusLoopFromInit phi F width height tol threshold piq testRange approx
              approxRadius cfuel fuel).r2) * 2 ∧
    (setFiberCenterRadiusMethod phi F width height tol threshold piq testRange approx
          approxRadius cfuel fuel).arraySum
        = radiusObjective (radiusCircle phi F width height tol testRange approx cfuel)
            threshold piq
            ((setFiberCenterRadiusMethod phi F width height tol threshold piq testRange approx
              approxRadius cfuel fuel).diameter / 2) := by
  have hstep := radiusStep_inv phi
    (radiusCircle phi F width height tol testRange approx cfuel) threshold piq st h0 h1
  have hloop := radiusLoop_inv phi
    (radiusCircle phi F width height tol testRange approx cfuel) threshold piq tol fuel
    (radiusInit phi (radiusCircle phi F width height tol testRange approx cfuel) threshold piq
      height width testRange approxRadius) rfl rfl
  refine ⟨rfl, rfl, rfl, rfl, hstep.1, hstep.2, rfl, ?_⟩
  set L := radiusLoopFromInit phi F width height tol threshold piq testRange approx
    approxRadius cfuel fuel with hL
  have hL0 : L.s0 = radiusObjective (radiusCircle phi F width height tol testRange approx cfuel)
      threshold piq L.r1 := hloop.1
  have hL1 : L.s1 = radiusObjective (radiusCircle phi F width height tol testRange approx cfuel)
      threshold piq L.r2 := hloop.2
  show (radiusFinish L).arraySum = radiusObjective _ threshold piq ((radiusFinish L).diameter / 2)
  by_cases hle : L.s0 ≤ L.s1
  · have hm : argmin2 L.s0 L.s1 = 0 := by simp [argmin2, hle]
    have hd : (radiusFinish L).diameter = L.r1 * 2 := by simp [radiusFinish, hm]
    have ha : (radiusFinish L).arraySum = L.s0 := by
      simp [radiusFinish, min_eq_left hle]
    rw [ha, hd, hL0]
    norm_num
  · have hm : argmin2 L.s0 L.s1 ≠ 0 := by simp [argmin2, hle]
    have hd : (radiusFinish L).diameter = L.r2 * 2 := by simp [radiusFinish, hm]
    have ha : (radiusFinish L).arraySum = L.s1 := by
      simp [radiusFinish, min_eq_right (le_of_lt (not_le.mp hle))]
    rw [ha, hd, hL1]
    norm_num

/-- Concrete constant-zero masked-sum objective family. -/
def c5F : ℚ → ℚ → ℚ → ℚ := fun _ _ _ => 0

/-- Concrete radius-search state satisfying the objective invariant. -/
def c5St : RState := ⟨0, 0, 0, 0, 0, 0, (0, 0)⟩

/-- The concrete per-radius circle call for the C5 witness. -/
def c5Circle : ℚ → CircleResult := radiusCircle (1/2) c5F 10 10 1 none (0, 0) 0

/-- Witness for C5 at a concrete instantiation (constant-zero objective,
10 by 10 image, `tol = 1`, `threshold = 0`, `pi` parameter `3`). -/
theorem C5_radius_objective_and_bracket_witness :
    (radiusInit (1/2) c5Circle 0 3 10 10 none 0).r0 = 0 ∧
    (radiusInit (1/2) c5Circle 0 3 10 10 none 0).r3 = min 10 10 / 2 ∧
    (radiusInit (1/2) c5Circle 0 3 10 10 none 0).s0
      = radiusObjective c5Circle 0 3 (radiusInit (1/2) c5Circle 0 3 10 10 none 0).r1 ∧
    (radiusInit (1/2) c5Circle 0 3 10 10 none 0).s1
      = radiusObjective c5Circle 0 3 (radiusInit (1/2) c5Circle 0 3 10 10 none 0).r2 ∧
    (radiusStep (1/2) c5Circle 0 3 c5St).s0
      = radiusObjective c5Circle 0 3 (radiusStep (1/2) c5Circle 0 3 c5St).r1 ∧
    (radiusStep (1/2) c5Circle 0 3 c5St).s1
      = radiusObjective c5Circle 0 3 (radiusStep (1/2) c5Circle 0 3 c5St).r2 ∧
    (setFiberCenterRadiusMethod (1/2) c5F 10 10 1 0 3 none (0, 0) 0 0 1).diameter
      = (if argmin2 (radiusLoopFromInit (1/2) c5F 10 10 1 0 3 none (0, 0) 0 0 1).s0
            (radiusLoopFromInit (1/2) c5F 10 10 1 0 3 none (0, 0) 0 0 1).s1 = 0
         then (radiusLoopFromInit (1/2) c5F 10 10 1 0 3 none (0, 0) 0 0 1).r1
         else (radiusLoopFromInit (1/2) c5F 10 10 1 0 3 none (0, 0) 0 0 1).r2) * 2 ∧
    (setFiberCenterRadiusMethod (1/2) c5F 10 10 1 0 3 none (0, 0) 0 0 1).arraySum
      = radiusObjective c5Circle 0 3
          ((setFiberCenterRadiusMethod (1/2) c5F 10 10 1 0 3 none (0, 0) 0 0 1).diameter / 2) :=
  C5_radius_objective_and_bracket (1/2) c5F 10 10 1 0 3 none (0, 0) 0 0 1 c5St
    (by norm_num [c5St, c5F, radiusObjective, radiusCircle, setFiberCenterCircleMethod,
      circleFinish, circleLoop, circleInit, min4])
    (by norm_num [c5St, c5F, radiusObjective, radiusCircle, setFiberCenterCircleMethod,
      circleFinish, circleLoop, circleInit, min4])

/-- Claim C3: golden-section tie-break determinism.  In the 1D radius
search, when the two interior objective values are exactly equal the
argmin is index 0 and the bracket is shrunk toward `r1`: the upper bound
`r3` is replaced by `r2`, the lower bound is kept, and `r1` becomes the
new `r2`.  In the 2D center search, an exact four-way tie among the
corner objective values resolves to the lowest (row-major) corner index
`(0, 0)`.  Both searches are pure functions of their arguments, so
repeated runs on a fixed image with fixed arguments return identical
results. -/
theorem C3_tie_break_deterministic (phi threshold piq : ℚ) (circle : ℚ → CircleResult)
    (st : RState) (a b c d : ℚ) (h : st.s0 = st.s1) (hb : b = a) (hc : c = a) (hd : d = a) :
    argmin2 st.s0 st.s1 = 0 ∧
    (radiusStep phi circle threshold piq st).r3 = st.r2 ∧
    (radiusStep phi circle threshold piq st).r2 = st.r1 ∧
    (radiusStep phi circle threshold piq st).r0 = st.r0 ∧
    argmin4 a b c d = ((0 : Fin 2), (0 : Fin 2)) := by
  have hm : argmin2 st.s0 st.s1 = 0 := by simp [argmin2, h]
  subst hb hc hd
  refine ⟨hm, ?_, ?_, ?_, by simp [argmin4]⟩ <;> simp [radiusStep, hm]

/-- Witness for C3 at a concrete tied state and a four-way corner tie. -/
theorem C3_tie_break_deterministic_witness :
    argmin2 (7 : ℚ) 7 = 0 ∧
    (radiusStep (1/2) (fun _ => CircleResult.mk 0 0 0 0) 0 3 ⟨1, 2, 3, 4, 7, 7, (0, 0)⟩).r3
      = (⟨1, 2, 3, 4, 7, 7, (0, 0)⟩ : RState).r2 ∧
    (radiusStep (1/2) (fun _ => CircleResult.mk 0 0 0 0) 0 3 ⟨1, 2, 3, 4, 7, 7, (0, 0)⟩).r2
      = (⟨1, 2, 3, 4, 7, 7, (0, 0)⟩ : RState).r1 ∧
    (radiusStep (1/2) (fun _ => CircleResult.mk 0 0 0 0) 0 3 ⟨1, 2, 3, 4, 7, 7, (0, 0)⟩).r0
      = (⟨1, 2, 3, 4, 7, 7, (0, 0)⟩ : RState).r0 ∧
    argmin4 2 2 2 2 = ((0 : Fin 2), (0 : Fin 2)) :=
  C3_tie_break_deterministic (1/2) 0 3 (fun _ => CircleResult.mk 0 0 0 0)
    ⟨1, 2, 3, 4, 7, 7, (0, 0)⟩ 2 2 2 2 rfl rfl rfl rfl

/-! ## Edge detection (ImageAnalysis.py lines 706-756)

`setFiberEdges` scans column maxima left to right and row maxima top to
bottom against the threshold; the filtered image it scans is the input
array here (the box filtering lives in the external `NumpyArrayHandler`
module). -/

/-- Binary maximum on ℚ (`if a ≤ b then b else a`). -/
def qmax (a b : ℚ) : ℚ :=
  if a ≤ b then b else a

/-- `numpy .max()` over a list of entries (the base case of the fold is
the head, so for a nonempty list this is the genuine maximum; the source
only ever applies it to nonempty image slices). -/
def maxQ (l : List ℚ) : ℚ :=
  l.foldr qmax (l.headD 0)

/-- `self._filtered_image[:, j].max()`: maximum of column `j`. -/
def colMax (image : Mat) (j : ℕ) : ℚ :=
  maxQ (image.map (fun row => row.getD j 0))

/-- `self._filtered_image[i, :].max()`: maximum of row `i`. -/
def rowMax (image : Mat) (i : ℕ) : ℚ :=
  maxQ (image.getD i [])

/-- One index of the scan loop (ImageAnalysis.py lines 734-740): while the
first edge is unset (`< 0`), a qualifying index sets it; afterwards every
qualifying index overwrites the second edge. -/
def edgeScanStep (q : ℕ → Bool) (lr : Int × Int) (i : ℕ) : Int × Int :=
  if lr.1 < 0 then (if q i then ((i : Int), lr.2) else lr)
  else (if q i then (lr.1, (i : Int)) else lr)

/-- The full scan over indices `0, ..., n-1`, starting from the sentinel
pair `(-1, -1)`. -/
def edgeScan (q : ℕ → Bool) (n : ℕ) : Int × Int :=
  (List.range n).foldl (edgeScanStep q) (-1, -1)

/-- The first qualifying index (as the claim describes `left`/`top`), or
`-1` when none qualifies. -/
def firstEdge (q : ℕ → Bool) (n : ℕ) : Int :=
  match ((List.range n).filter q).head? with
  | some i => (i : Int)
  | none => -1

/-- The value the scan actually leaves in the second slot: the LAST
qualifying index when at least TWO indices qualify, and the sentinel `-1`
otherwise (in particular when exactly one index qualifies). -/
def lastEdge (q : ℕ → Bool) (n : ℕ) : Int :=
  if 2 ≤ ((List.range n).filter q).length then
    match ((List.range n).filter q).getLast? with
    | some i => (i : Int)
    | none => -1
  else -1

/-- The `Edges` record plus the edge-method diameter
(`self._edges` and `self._diameter['edge']`). -/
structure EdgeResult where
  left : Int
  right : Int
  top : Int
  bottom : Int
  diameter : ℚ
deriving DecidableEq

/-- `ImageAnalysis.setFiberEdges` (ImageAnalysis.py lines 717-756):
column scan, row scan, and diameter
`((right - left) + (bottom - top)) / 2.0`. -/
def setFiberEdges (filtered : Mat) (width height : ℕ) (threshold : ℚ) : EdgeResult :=
  let lr := edgeScan (fun j => decide (threshold < colMax filtered j)) width
  let tb := edgeScan (fun i => decide (threshold < rowMax filtered i)) height
  { left := lr.1, right := lr.2, top := tb.1, bottom := tb.2,
    diameter := (((lr.2 - lr.1) + (tb.2 - tb.1) : Int) : ℚ) / 2 }

/-- Characterization of the scan loop: the first slot ends as the first
qualifying index (or `-1`), and the second slot ends as the last
qualifying index when at least two indices qualify, else `-1`. -/
theorem edgeScan_spec (q : ℕ → Bool) : ∀ n, edgeScan q n = (firstEdge q n, lastEdge q n) := by
  intro n
  induction n with
  | zero => rfl
  | succ n ih =>
    have hstep : edgeScan q (n + 1) = edgeScanStep q (edgeScan q n) n := by
      rw [edgeScan, edgeScan, List.range_succ, List.foldl_append, List.foldl_cons,
        List.foldl_nil]
    have hfilter : (List.range (n + 1)).filter q
        = (List.range n).filter q ++ if q n then [n] else [] := by
      rw [List.range_succ, List.filter_append]
      by_cases hq : q n <;> simp [hq]
    rw [hstep, ih]
    by_cases hq : q n
    · cases hL : (List.range n).filter q with
      | nil =>
        have hf : firstEdge q n = -1 := by simp [firstEdge, hL]
        have hl : lastEdge q n = -1 := by simp [lastEdge, hL]
        have hf' : firstEdge q (n + 1) = (n : Int) := by
          simp [firstEdge, hfilter, hL, hq]
        have hl' : lastEdge q (n + 1) = -1 := by
          simp [lastEdge, hfilter, hL, hq]
        rw [hf, hl, hf', hl']
        simp [edgeScanStep, hq]
      | cons a as =>
        have hf : firstEdge q n = (a : Int) := by simp [firstEdge, hL]
        have hf' : firstEdge q (n + 1) = (a : Int) := by
          simp [firstEdge, hfilter, hL, hq]
        have hl' : lastEdge q (n + 1) = (n : Int) := by
          have hlast : (a :: (as ++ [n])).getLast? = some n := by
            rw [← List.cons_append, List.getLast?_append_cons]
            rfl
          have hlen : 2 ≤ (a :: (as ++ [n])).length := by
            simp only [List.length_cons, List.length_append, List.length_singleton]
            omega
          simp [lastEdge, hfilter, hL, hq, hlast, hlen]
        rw [hf, hf', hl']
        have hge : ¬ (a : Int) < 0 := not_lt.mpr (Int.natCast_nonneg a)
        simp [edgeScanStep, hq, hge]
    · have hfilter' : (List.range (n + 1)).filter q = (List.range n).filter q := by
        simp [hfilter, hq]
      have hf' : firstEdge q (n + 1) = firstEdge q n := by
        rw [firstEdge, firstEdge, hfilter']
      have hl' : lastEdge q (n + 1) = lastEdge q n := by
        rw [lastEdge, lastEdge, hfilter']
      rw [hf', hl']
      simp [edgeScanStep, hq]

/-- Concrete 3x3 filtered image in which exactly one column (index 1) and
two rows (indices 0 and 2) have maxima above the threshold 10. -/
def c4Image : Mat :=
  [[0, 20, 0], [0, 0, 0], [0, 20, 0]]

/-- Counterexample to claim C4 as stated: on `c4Image` with threshold 10,
column 1 is the last (indeed only) column whose maximum exceeds the
threshold, yet the scan leaves `right = -1` (the sentinel), not `1`:
`right` is only updated by qualifying columns found AFTER `left` was set,
so with a single qualifying column it never ends as the last qualifying
column. -/
theorem C4_single_column_counterexample :
    setFiberEdges c4Image 3 3 10 = EdgeResult.mk 1 (-1) 0 2 0 ∧
    decide ((10 : ℚ) < colMax c4Image 1) = true ∧
    (List.range 3).filter (fun j => decide ((10 : ℚ) < colMax c4Image j)) = [1] ∧
    ¬ (setFiberEdges c4Image 3 3 10).right = 1 := by
  have hcol : edgeScan (fun j => decide ((10 : ℚ) < colMax c4Image j)) 3 = (1, -1) := by
    decide
  have hrow : edgeScan (fun i => decide ((10 : ℚ) < rowMax c4Image i)) 3 = (0, 2) := by
    decide
  refine ⟨?_, by decide, by decide, ?_⟩
  · simp only [setFiberEdges]
    rw [hcol, hrow]
    norm_num
  · show ¬ (edgeScan (fun j => decide ((10 : ℚ) < colMax c4Image j)) 3).2 = 1
    rw [hcol]
    decide

/-- Claim C4, amended: scanning columns left to right, `left` is the first
column whose maximum exceeds the threshold (`-1` when none does), and
`right` is the last column whose maximum exceeds the threshold PROVIDED at
least two columns qualify — with at most one qualifying column `right`
stays at the sentinel `-1` (symmetrically for `top`/`bottom` over rows);
the edge-method diameter equals `((right - left) + (bottom - top)) / 2`,
the mean of the horizontal and vertical spans, not their maximum. -/
theorem C4_edge_scan_characterization (q : ℕ → Bool) (n : ℕ) (filtered : Mat)
    (w h : ℕ) (t : ℚ) :
    edgeScan q n = (firstEdge q n, lastEdge q n) ∧
    (setFiberEdges filtered w h t).left
      = firstEdge (fun j => decide (t < colMax filtered j)) w ∧
    (setFiberEdges filtered w h t).right
      = lastEdge (fun j => decide (t < colMax filtered j)) w ∧
    (setFiberEdges filtered w h t).top
      = firstEdge (fun i => decide (t < rowMax filtered i)) h ∧
    (setFiberEdges filtered w h t).bottom
      = lastEdge (fun i => decide (t < rowMax filtered i)) h ∧
    (setFiberEdges filtered w h t).diameter
      = ((((setFiberEdges filtered w h t).right - (setFiberEdges filtered w h t).left)
          + ((setFiberEdges filtered w h t).bottom - (setFiberEdges filtered w h t).top)
            : Int) : ℚ) / 2 := by
  have hc := edgeScan_spec (fun j => decide (t < colMax filtered j)) w
  have hr := edgeScan_spec (fun i => decide (t < rowMax filtered i)) h
  refine ⟨edgeScan_spec q n, ?_, ?_, ?_, ?_, rfl⟩
  · show (edgeScan (fun j => decide (t < colMax filtered j)) w).1 = _
    rw [hc]
  · show (edgeScan (fun j => decide (t < colMax filtered j)) w).2 = _
    rw [hc]
  · show (edgeScan (fun i => decide (t < rowMax filtered i)) h).1 = _
    rw [hr]
  · show (edgeScan (fun i => decide (t < rowMax filtered i)) h).2 = _
    rw [hr]

/-- Counterexample to claim C8 as stated: on an all-zero 2x2 image with
threshold 256 no column or row maximum exceeds the threshold, yet
`setFiberEdges` does not fail — the source has no error path at all (no
`NoFiberFoundError` exists anywhere in the repository) — and an edge set
of sentinels `-1` with diameter `0` is returned. -/
theorem C8_no_error_raised_counterexample :
    setFiberEdges [[0, 0], [0, 0]] 2 2 256 = EdgeResult.mk (-1) (-1) (-1) (-1) 0 := by
  have hcol : edgeScan (fun j => decide ((256 : ℚ) < colMax [[0, 0], [0, 0]] j)) 2
      = (-1, -1) := by decide
  have hrow : edgeScan (fun i => decide ((256 : ℚ) < rowMax [[0, 0], [0, 0]] i)) 2
      = (-1, -1) := by decide
  simp only [setFiberEdges]
  rw [hcol, hrow]
  norm_num

/-- Claim C8, amended: for every image in which no column and no row has a
maximum exceeding the threshold, `setFiberEdges` does not raise any
error; it returns the degenerate edge set in which all four edges keep
their sentinel value `-1` and the diameter is `0`. -/
theorem C8_no_qualifying_column_returns_sentinels (filtered : Mat) (w h : ℕ) (t : ℚ)
    (hc : (List.range w).filter (fun j => decide (t < colMax filtered j)) = [])
    (hr : (List.range h).filter (fun i => decide (t < rowMax filtered i)) = []) :
    setFiberEdges filtered w h t = EdgeResult.mk (-1) (-1) (-1) (-1) 0 := by
  have hcol : edgeScan (fun j => decide (t < colMax filtered j)) w = (-1, -1) := by
    rw [edgeScan_spec]
    rw [firstEdge, lastEdge, hc]
    simp
  have hrow : edgeScan (fun i => decide (t < rowMax filtered i)) h = (-1, -1) := by
    rw [edgeScan_spec]
    rw [firstEdge, lastEdge, hr]
    simp
  simp only [setFiberEdges]
  rw [hcol, hrow]
  norm_num

/-- Witness for C8 (amended) at the all-zero 3x2 image with threshold 256. -/
theorem C8_no_qualifying_column_returns_sentinels_witness :
    setFiberEdges [[0, 0], [0, 0], [0, 0]] 2 3 256 = EdgeResult.mk (-1) (-1) (-1) (-1) 0 :=
  C8_no_qualifying_column_returns_sentinels [[0, 0], [0, 0], [0, 0]] 2 3 256
    (by decide) (by decide)

/-! ## Method-result caching (fiber_properties/fiber_image.py)

`FiberImage` caches a center, diameter and centroid per method name, plus
the keyword options the cached value was computed with.  The actual
geometric computations (`fiber_center_and_diameter`, `fiber_centroid`)
live in modules not present in the source tree and are taken as function
parameters; the caching and invalidation logic below is the logic of
`get_fiber_center` / `get_fiber_diameter` / `get_fiber_centroid` and
`set_fiber_center` / `set_fiber_centroid` (fiber_image.py lines 183-332
and 564-652).  The states also carry two instrumentation counters giving
the number of center and centroid computations performed so far. -/

/-- The method names used by the `FiberImage` getters. -/
inductive FMethod
  | edge
  | radius
  | circle
  | gaussian
  | full
deriving DecidableEq

/-- Keyword-argument dictionaries (`**kwargs` and the per-method options
dictionaries), as association lists from option name to rational value. -/
abbrev Kwargs : Type := List (String × ℚ)

/-- `new_option = any([key not in getattr(self._options, method) or
kwargs[key] != getattr(self._options, method)[key] for key in kwargs])`
(fiber_image.py lines 276-277): some supplied keyword is absent from the
stored options or differs from its stored value. -/
def newOption (kwargs opts : Kwargs) : Bool :=
  kwargs.any (fun kv =>
    match opts.lookup kv.1 with
    | none => true
    | some v => v != kv.2)

/-- Python dict assignment `options[key] = value`: replace the first
binding of the key, or append a new binding.
Modelled from the spec: the `'dict'` variant of the
`.containers.FiberInfo` container (spec section 3, the per-method option
set of a MethodResult) is missing from the source tree — `containers.py`
recognizes only `'pixel'` and `'value'` — so the per-method options
dictionary that `fiber_image.py` line 98 requests with
`FiberInfo('dict')` is modelled as an association list with ordinary
dictionary update semantics. -/
def dictInsert (o : Kwargs) (k : String) (v : ℚ) : Kwargs :=
  if (o.lookup k).isSome then
    o.map (fun kv => if kv.1 == k then (kv.1, v) else kv)
  else o ++ [(k, v)]

/-- `for key in kwargs: getattr(self._options, method)[key] = kwargs[key]`
(fiber_image.py lines 651-652).  Note stored keys absent from `kwargs`
are kept, never cleared. -/
def updateOptions (opts kwargs : Kwargs) : Kwargs :=
  kwargs.foldl (fun o kv => dictInsert o kv.1 kv.2) opts

/-- The cached data of one method: center, diameter, centroid (all
initially `None`) and the options dictionary. -/
structure MethodSlot where
  center : Option (ℚ × ℚ)
  diameter : Option ℚ
  centroid : Option (ℚ × ℚ)
  options : Kwargs
deriving DecidableEq

/-- A freshly initialized slot. -/
def MethodSlot.empty : MethodSlot :=
  ⟨none, none, none, []⟩

/-- The caching state of a `FiberImage`: one slot per method, plus
instrumentation counters for center and centroid computations. -/
structure FiberImageState where
  edge : MethodSlot
  radius : MethodSlot
  circle : MethodSlot
  gaussian : MethodSlot
  full : MethodSlot
  centerComputations : ℕ
  centroidComputations : ℕ
deriving DecidableEq

/-- Slot accessor by method name. -/
def FiberImageState.slot (s : FiberImageState) : FMethod → MethodSlot
  | .edge => s.edge
  | .radius => s.radius
  | .circle => s.circle
  | .gaussian => s.gaussian
  | .full => s.full

/-- Slot update by method name (touches only that method's slot). -/
def FiberImageState.setSlot (s : FiberImageState) (m : FMethod) (sl : MethodSlot) :
    FiberImageState :=
  match m with
  | .edge => { s with edge := sl }
  | .radius => { s with radius := sl }
  | .circle => { s with circle := sl }
  | .gaussian => { s with gaussian := sl }
  | .full => { s with full := sl }

/-- The state of a freshly constructed `FiberImage`. -/
def freshFiberImage : FiberImageState :=
  ⟨MethodSlot.empty, MethodSlot.empty, MethodSlot.empty, MethodSlot.empty, MethodSlot.empty,
    0, 0⟩

/-- `FiberImage.set_fiber_center` (fiber_image.py lines 629-652): run the
centering computation, store center and diameter in the method's slot,
and merge the supplied keywords into the method's options dictionary.
`computeCD` stands for the external `fiber_center_and_diameter`. -/
def set_fiber_center (computeCD : FMethod → Kwargs → (ℚ × ℚ) × ℚ)
    (s : FiberImageState) (m : FMethod) (kwargs : Kwargs) : FiberImageState :=
  let cd := computeCD m kwargs
  let sl := s.slot m
  let s' := s.setSlot m
    { sl with
      center := some cd.1
      diameter := some cd.2
      options := updateOptions sl.options kwargs }
  { s' with centerComputations := s'.centerComputations + 1 }

/-- The cache logic of `FiberImage.get_fiber_center` (fiber_image.py lines
276-279): recompute when the cached center is absent or any supplied
option is new or differs from the stored options.  (The method-resolution
default and the unit conversion of the source are not involved in the
cache behaviour and are omitted.) -/
def get_fiber_center (computeCD : FMethod → Kwargs → (ℚ × ℚ) × ℚ)
    (s : FiberImageState) (m : FMethod) (kwargs : Kwargs) :
    FiberImageState × (ℚ × ℚ) :=
  let sl := s.slot m
  let s' :=
    if sl.center = none ∨ newOption kwargs sl.options = true then
      set_fiber_center computeCD s m kwargs
    else s
  (s', ((s'.slot m).center).getD (0, 0))

/-- The cache logic of `FiberImage.get_fiber_diameter` (fiber_image.py
lines 225-228): same `new_option` test on the diameter slot;
`set_fiber_diameter` delegates to `set_fiber_center` (the `'circle'`
RuntimeError path is not modelled). -/
def get_fiber_diameter (computeCD : FMethod → Kwargs → (ℚ × ℚ) × ℚ)
    (s : FiberImageState) (m : FMethod) (kwargs : Kwargs) : FiberImageState × ℚ :=
  let sl := s.slot m
  let s' :=
    if sl.diameter = none ∨ newOption kwargs sl.options = true then
      set_fiber_center computeCD s m kwargs
    else s
  (s', ((s'.slot m).diameter).getD 0)

/-- `FiberImage.set_fiber_centroid` (fiber_image.py lines 564-580): store
the centroid; the options dictionary is NOT updated.  `computeCentroid`
stands for the external `fiber_centroid`. -/
def set_fiber_centroid (computeCentroid : FMethod → Kwargs → ℚ × ℚ)
    (s : FiberImageState) (m : FMethod) (kwargs : Kwargs) : FiberImageState :=
  let sl := s.slot m
  let s' := s.setSlot m { sl with centroid := some (computeCentroid m kwargs) }
  { s' with centroidComputations := s'.centroidComputations + 1 }

/-- The cache logic of `FiberImage.get_fiber_centroid` (fiber_image.py
lines 324-327): the `new_option` test is commented out in the source, so
the centroid is recomputed only when absent — supplied options are never
compared with the stored ones. -/
def get_fiber_centroid (computeCentroid : FMethod → Kwargs → ℚ × ℚ)
    (s : FiberImageState) (m : FMethod) (kwargs : Kwargs) :
    FiberImageState × (ℚ × ℚ) :=
  let s' :=
    if (s.slot m).centroid = none then set_fiber_centroid computeCentroid s m kwargs
    else s
  (s', ((s'.slot m).centroid).getD (0, 0))

/-- State after `get_fiber_center(method='radius', tol=0.5)` on a fresh
`FiberImage`. -/
def c7S1 (computeCD : FMethod → Kwargs → (ℚ × ℚ) × ℚ) : FiberImageState :=
  (get_fiber_center computeCD freshFiberImage FMethod.radius [("tol", 1/2)]).1

/-- State after the follow-up `get_fiber_center(method='radius', tol=0.1)`. -/
def c7S2 (computeCD : FMethod → Kwargs → (ℚ × ℚ) × ℚ) : FiberImageState :=
  (get_fiber_center computeCD (c7S1 computeCD) FMethod.radius [("tol", 1/10)]).1

/-- Counterexample to claim C7 as stated: the centroid getter does NOT
recompute when a keyword option differs from the cached option set — the
`new_option` test in `get_fiber_centroid` is commented out in the source
(fiber_image.py lines 324-326).  Concretely, after a first centroid call
with `radius_factor = 1`, a second call with `radius_factor = 2` performs
no recomputation: the state is unchanged and the centroid-computation
count stays at 1. -/
theorem C7_centroid_ignores_option_change_counterexample :
    ((get_fiber_centroid (fun _ _ => (3, 4))
        ((get_fiber_centroid (fun _ _ => (3, 4)) freshFiberImage FMethod.edge
          [("radius_factor", 1)]).1)
        FMethod.edge [("radius_factor", 2)]).1).centroidComputations = 1 ∧
    (get_fiber_centroid (fun _ _ => (3, 4))
        ((get_fiber_centroid (fun _ _ => (3, 4)) freshFiberImage FMethod.edge
          [("radius_factor", 1)]).1)
        FMethod.edge [("radius_factor", 2)]).1
      = (get_fiber_centroid (fun _ _ => (3, 4)) freshFiberImage FMethod.edge
          [("radius_factor", 1)]).1 :=
  ⟨rfl, rfl⟩

/-- Claim C7, amended: the CENTER and DIAMETER getters recompute exactly
when the cached value is absent or a supplied keyword option differs from
the stored option set, and they touch only the queried method's slot —
so `get_fiber_center(method='radius', tol=0.5)` followed by
`get_fiber_center(method='radius', tol=0.1)` performs exactly one
computation per call (the second being the recomputation forced by the
changed option), every other method's slot stays untouched, and a third
call repeating `tol=0.1` hits the cache and changes nothing.  The
CENTROID getter, by contrast, recomputes only when no centroid is cached:
an option change never invalidates a cached centroid. -/
theorem C7_center_cache_invalidation_centroid_exempt
    (computeCD : FMethod → Kwargs → (ℚ × ℚ) × ℚ)
    (computeCentroid : FMethod → Kwargs → ℚ × ℚ) (kw kw' : Kwargs) :
    (c7S1 computeCD).centerComputations = 1 ∧
    (c7S2 computeCD).centerComputations = 2 ∧
    (c7S2 computeCD).edge = MethodSlot.empty ∧
    (c7S2 computeCD).circle = MethodSlot.empty ∧
    (c7S2 computeCD).gaussian = MethodSlot.empty ∧
    (c7S2 computeCD).full = MethodSlot.empty ∧
    (get_fiber_center computeCD (c7S2 computeCD) FMethod.radius [("tol", 1/10)]).1
      = c7S2 computeCD ∧
    (get_fiber_centroid computeCentroid
        ((get_fiber_centroid computeCentroid freshFiberImage FMethod.edge kw).1)
        FMethod.edge kw').1
      = (get_fiber_centroid computeCentroid freshFiberImage FMethod.edge kw).1 := by
  have hno : newOption [("tol", (1/10 : ℚ))] [("tol", (1/2 : ℚ))] = true := by
    have hred : newOption [("tol", (1/10 : ℚ))] [("tol", (1/2 : ℚ))]
        = (((1/2 : ℚ) != (1/10)) || false) := rfl
    rw [hred]
    simp only [Bool.or_false, bne_iff_ne, ne_eq]
    norm_num
  have h2 : c7S2 computeCD
      = set_fiber_center computeCD (c7S1 computeCD) FMethod.radius [("tol", (1/10 : ℚ))] := by
    have hopt : ((c7S1 computeCD).slot FMethod.radius).options = [("tol", (1/2 : ℚ))] := rfl
    have hcond : newOption [("tol", (1/10 : ℚ))] ((c7S1 computeCD).slot FMethod.radius).options
        = true := by
      rw [hopt]
      exact hno
    simp only [c7S2, get_fiber_center]
    rw [if_pos (Or.inr hcond)]
  have hcen : ((c7S2 computeCD).slot FMethod.radius).center
      = some (computeCD FMethod.radius [("tol", (1/10 : ℚ))]).1 := by
    rw [h2]
    rfl
  have hopt2 : ((c7S2 computeCD).slot FMethod.radius).options = [("tol", (1/10 : ℚ))] := by
    rw [h2]
    rfl
  have hno2 : newOption [("tol", (1/10 : ℚ))] [("tol", (1/10 : ℚ))] = false := by
    have hred : newOption [("tol", (1/10 : ℚ))] [("tol", (1/10 : ℚ))]
        = (((1/10 : ℚ) != (1/10)) || false) := rfl
    rw [hred]
    simp
  refine ⟨rfl, by rw [h2]; rfl, by rw [h2]; rfl, by rw [h2]; rfl, by rw [h2]; rfl,
    by rw [h2]; rfl, ?_, ?_⟩
  · simp only [get_fiber_center]
    rw [if_neg]
    intro hcontra
    rcases hcontra with h | h
    · rw [hcen] at h
      exact absurd h (by simp)
    · rw [hopt2, hno2] at h
      exact absurd h (by decide)
  · simp [get_fiber_centroid, set_fiber_centroid, freshFiberImage,
      FiberImageState.slot, FiberImageState.setSlot, MethodSlot.empty]

end FiberProps
